import Mathlib

/-
Verification of the client-serving core of flexo (src/flexo/src/main.rs).

The Rust code is shallowly embedded as pure Lean functions:
  * u64 subtraction is modelled by checkedSub: Rust panics on underflow, so an
    underflowing subtraction yields an error value tagged "panic: ...".
    (Additions in the modelled code never approach 2^64 in any claim, so they
    are modelled as exact Nat additions.)
  * Code paths that call panic-or-unwrap are modelled as Except String results,
    where the .error carries the panic marker.
  * Files are byte lists; sendfile moves min(MAX_SENDFILE_COUNT, len - offset)
    bytes per call; the send_payload while-loop is given explicit fuel so that
    its non-termination behaviour is itself a provable statement.
  * The wall clock (the Date header) is irrelevant to every claim, so the reply
    header is modelled as a structure (status line, Content-Range header text,
    Content-Length) together with a render function giving the wire format.
-/

namespace Flexo

/-- Checked u64 subtraction: Rust's a - b on u64 panics when b > a. -/
def checkedSub (a b : Nat) : Option Nat :=
  if b ≤ a then some (a - b) else none

/-- man 2 read: read() (and similar system calls) transfer at most 0x7ffff000 bytes;
the non-test constant from main.rs. -/
def MAX_SENDFILE_COUNT : Nat := 0x7ffff000

/-- main installs a panic hook that exits the entire process with code 1 whenever
any single thread panics (main.rs lines 45-50). -/
inductive ProcessEffect
  | continues
  | exits (code : Nat)
deriving DecidableEq

def panic_hook_effect : ProcessEffect := .exits 1

/-- Reply header as produced by reply_header in main.rs, minus the impure Date
field: status line, the Content-Range header text ("" when absent), and the
Content-Length value. -/
structure ReplyHeader where
  status_line : String
  content_range : String
  content_length : Nat
deriving DecidableEq

/-- Wire format of a reply header (reply_header's format string, with the
timestamp passed in explicitly). -/
def render_reply_header (h : ReplyHeader) (timestamp : String) : String :=
  "HTTP/1.1 " ++ h.status_line ++ "\r\nServer: flexo\r\nDate: " ++ timestamp ++
    "\r\n" ++ h.content_range ++ "Content-Length: " ++ toString h.content_length ++ "\r\n\r\n"

/-- The Content-Range computation inside reply_header: complete_size is
content_length + resume_from, and last_byte is complete_size - 1, a u64
subtraction that panics when complete_size is zero. -/
def content_range_header (content_length : Nat) (resume_from : Option Nat) : Except String String :=
  match resume_from with
  | none => .ok ""
  | some r =>
    match checkedSub (content_length + r) 1 with
    | none => .error "panic: subtract with overflow"
    | some last_byte =>
      .ok ("Content-Range: bytes " ++ toString r ++ "-" ++ toString last_byte ++ "/" ++
        toString (content_length + r) ++ "\r\n")

def reply_header (status_line : String) (content_length : Nat) (resume_from : Option Nat) :
    Except String ReplyHeader :=
  (content_range_header content_length resume_from).map (fun cr =>
    { status_line := status_line, content_range := cr, content_length := content_length })

def reply_header_success (content_length : Nat) : Except String ReplyHeader :=
  reply_header "200 OK" content_length none

def reply_header_partial_content (content_length : Nat) (resume_from : Nat) : Except String ReplyHeader :=
  reply_header "206 Partial Content" content_length (some resume_from)

def reply_header_not_found : Except String ReplyHeader :=
  reply_header "404 Not Found" 0 none

def reply_header_bad_request : Except String ReplyHeader :=
  reply_header "400 Bad Request" 0 none

def reply_header_internal_server_error : Except String ReplyHeader :=
  reply_header "500 Internal Server Error" 0 none

/-- The sendfile loop of send_payload: while offset < filesize, one sendfile call
moves min(MAX_SENDFILE_COUNT, file length - offset) bytes and advances the shared
offset accumulator. sendfile at end-of-file moves zero bytes and is not an error,
so the loop is given explicit fuel; a none result means the fuel was exhausted
while the loop condition still held. The returned list is the transmitted byte
sequence. -/
def send_payload_loop (contents : List Nat) (filesize : Nat) : Nat → Nat → Option (Nat × List Nat)
  | 0, offset =>
    if offset < filesize then none else some (offset, [])
  | fuel + 1, offset =>
    if offset < filesize then
      match send_payload_loop contents filesize fuel
          (offset + min MAX_SENDFILE_COUNT (contents.length - offset)) with
      | none => none
      | some (fin, rest) =>
        some (fin, (contents.drop offset).take (min MAX_SENDFILE_COUNT (contents.length - offset)) ++ rest)
    else some (offset, [])

/-- serve_from_complete_file: stat the file, compute content_length =
filesize - resume_from (u64, panics on underflow), build the 200/206 header,
then send_payload from the resume offset up to filesize. The fuel
contents.length + 1 is provably sufficient whenever the subtraction succeeded. -/
def serve_from_complete_file (contents : List Nat) (resume_from : Option Nat) :
    Except String (ReplyHeader × List Nat) :=
  match checkedSub contents.length (resume_from.getD 0) with
  | none => .error "panic: subtract with overflow"
  | some content_length =>
    match (match resume_from with
           | none => reply_header_success content_length
           | some r => reply_header_partial_content content_length r) with
    | .error e => .error e
    | .ok header =>
      match send_payload_loop contents contents.length (contents.length + 1) (resume_from.getD 0) with
      | none => .error "panic: sendfile loop exhausted"
      | some (_, payload) => .ok (header, payload)

/-- Modelled from the spec: the FlexoProgress enum is defined in the separate
flexo library crate, which is not under src in this repository; its variants
are taken from the spec's progress-message data model (JobSize, Unavailable,
OrderError, Completed, Failed). The src code pattern-matches on JobSize,
Unavailable and OrderError and treats every other message as unexpected. -/
inductive FlexoProgress
  | jobSize (n : Nat)
  | unavailable
  | orderError
  | completed
  | failed
deriving DecidableEq

/-- crossbeam RecvTimeoutError: recv_timeout either times out or reports that
the channel is closed (all senders dropped). -/
inductive RecvTimeoutError
  | timeout
  | disconnected
deriving DecidableEq

/-- Outcome of one recv_timeout call on the subscriber channel. -/
inductive RecvOutcome
  | msg (m : FlexoProgress)
  | recvErr (e : RecvTimeoutError)
deriving DecidableEq

inductive ContentLengthError
  | transmissionError (e : RecvTimeoutError)
  | unavailable
  | orderError
deriving DecidableEq

/-- receive_content_length from main.rs: a single recv_timeout (every arm of the
source's loop breaks, so the loop body runs exactly once). JobSize yields the
content length; Unavailable and OrderError yield the corresponding errors; a
recv error is wrapped as TransmissionError; any other message (Completed,
Failed) hits the panic arm. -/
def receive_content_length (recv : RecvOutcome) : Except String (Except ContentLengthError Nat) :=
  match recv with
  | .msg (.jobSize n) => .ok (.ok n)
  | .msg .unavailable => .ok (.error .unavailable)
  | .msg .orderError => .ok (.error .orderError)
  | .recvErr e => .ok (.error (.transmissionError e))
  | .msg _ => .error "panic: unexpected message"

/-- What serve_client does with one request before any payload streaming:
either it dispatches to serve_from_growing_file with a content length and the
client's resume offset, or it writes a bare header (the 404/400/500 replies,
which carry no payload). -/
inductive ClientReply
  | growingFile (content_length : Nat) (resume_from : Option Nat)
  | headerOnly (header : ReplyHeader)
deriving DecidableEq

/-- The ScheduleOutcome::Scheduled arm of serve_client: drive
receive_content_length and map its result exactly as the source match does.
The catch-all Err(e) arm of the source (reached only by a recv timeout,
since Unavailable, OrderError and Disconnected are matched earlier) panics. -/
def serve_client_scheduled (recv : RecvOutcome) (resume_from : Option Nat) :
    Except String ClientReply :=
  match receive_content_length recv with
  | .error e => .error e
  | .ok (.ok n) => .ok (.growingFile n resume_from)
  | .ok (.error .unavailable) => reply_header_not_found.map ClientReply.headerOnly
  | .ok (.error .orderError) => reply_header_bad_request.map ClientReply.headerOnly
  | .ok (.error (.transmissionError .disconnected)) =>
      reply_header_internal_server_error.map ClientReply.headerOnly
  | .ok (.error (.transmissionError .timeout)) => .error "panic: content length error"

/-- The ScheduleOutcome::AlreadyInProgress arm of serve_client: the result of
try_complete_filesize_from_path is unwrapped (panicking on None, i.e. on poll
timeout), and content_length = complete_filesize - resume_from is a u64
subtraction. -/
def serve_client_in_progress (poll_result : Option Nat) (resume_from : Option Nat) :
    Except String ClientReply :=
  match poll_result with
  | none => .error "panic: unwrap on None"
  | some complete_filesize =>
    match checkedSub complete_filesize (resume_from.getD 0) with
    | none => .error "panic: subtract with overflow"
    | some content_length => .ok (.growingFile content_length resume_from)

/-- Result of one xattr::get call for user.content_length: the attribute is
present with raw bytes, absent, or the read itself failed. -/
inductive XattrResult
  | present (value : List Nat)
  | absent
  | ioError

/-- Continuation-byte test for UTF-8 (0x80..0xBF). -/
def utf8Cont (b : Nat) : Bool := decide (0x80 ≤ b ∧ b ≤ 0xBF)

/-- UTF-8 validation/decoding as performed by String::from_utf8: byte list to
code points, rejecting overlong encodings, surrogates and values above
U+10FFFF. Returns none exactly when the bytes are not valid UTF-8. -/
def utf8Decode : List Nat → Option (List Nat)
  | [] => some []
  | b :: rest =>
    if b < 0x80 then
      (utf8Decode rest).map (fun cps => b :: cps)
    else if 0xC2 ≤ b ∧ b ≤ 0xDF then
      match rest with
      | [] => none
      | c1 :: rest1 =>
        if utf8Cont c1 then
          (utf8Decode rest1).map (fun cps => ((b - 0xC0) * 0x40 + (c1 - 0x80)) :: cps)
        else none
    else if 0xE0 ≤ b ∧ b ≤ 0xEF then
      match rest with
      | c1 :: c2 :: rest2 =>
        if ((if b = 0xE0 then 0xA0 else 0x80) ≤ c1 ∧ c1 ≤ (if b = 0xED then 0x9F else 0xBF)) ∧
            utf8Cont c2 = true then
          (utf8Decode rest2).map (fun cps =>
            ((b - 0xE0) * 0x1000 + (c1 - 0x80) * 0x40 + (c2 - 0x80)) :: cps)
        else none
      | _ => none
    else if 0xF0 ≤ b ∧ b ≤ 0xF4 then
      match rest with
      | c1 :: c2 :: c3 :: rest3 =>
        if ((if b = 0xF0 then 0x90 else 0x80) ≤ c1 ∧ c1 ≤ (if b = 0xF4 then 0x8F else 0xBF)) ∧
            utf8Cont c2 = true ∧ utf8Cont c3 = true then
          (utf8Decode rest3).map (fun cps =>
            ((b - 0xF0) * 0x40000 + (c1 - 0x80) * 0x1000 + (c2 - 0x80) * 0x40 + (c3 - 0x80)) :: cps)
        else none
      | _ => none
    else none

/-- Accumulating digit parser for u64::from_str: every character must be an
ASCII digit and the value must stay below 2^64. -/
def parseU64Digits : List Nat → Nat → Option Nat
  | [], acc => some acc
  | c :: rest, acc =>
    if 0x30 ≤ c ∧ c ≤ 0x39 then
      if acc * 10 + (c - 0x30) < 2 ^ 64 then parseU64Digits rest (acc * 10 + (c - 0x30))
      else none
    else none

/-- Rust's str::parse::<u64>: an optional leading plus sign followed by at
least one ASCII digit, rejecting overflow. Input is the decoded code points. -/
def parseU64 (cps : List Nat) : Option Nat :=
  match cps with
  | 0x2B :: rest =>
    match rest with
    | [] => none
    | _ => parseU64Digits rest 0
  | [] => none
  | _ => parseU64Digits cps 0

/-- content_length_from_path from main.rs: Ok(Some(bytes)) runs
String::from_utf8(...).unwrap().parse::<u64>().unwrap(), so a decode failure
panics; Ok(None) (attribute absent) and Err (xattr read error) give None. -/
def content_length_from_path (x : XattrResult) : Except String (Option Nat) :=
  match x with
  | .present value =>
    match utf8Decode value with
    | none => .error "panic: invalid utf8"
    | some cps =>
      match parseU64 cps with
      | none => .error "panic: invalid digit"
      | some n => .ok (some n)
  | .absent => .ok none
  | .ioError => .ok none

/-- Attempt bound of try_complete_filesize_from_path: 2_000 * 2 iterations. -/
def NUM_POLL_ATTEMPTS : Nat := 2000 * 2

/-- Sleep between poll attempts, in microseconds. -/
def POLL_SLEEP_MICROS : Nat := 500

/-- The polling while-loop of try_complete_filesize_from_path: attempt k reads
the attribute (attempts k is the state of the filesystem at that attempt);
a None read sleeps 500 microseconds and retries, a Some read returns at once,
and a decode panic propagates. -/
def poll_content_length (attempts : Nat → XattrResult) : Nat → Nat → Except String (Option Nat)
  | 0, _ => .ok none
  | n + 1, k =>
    match content_length_from_path (attempts k) with
    | .error e => .error e
    | .ok (some v) => .ok (some v)
    | .ok none => poll_content_length attempts n (k + 1)

/-- try_complete_filesize_from_path (the spec's wait_for_size): poll the
attribute up to NUM_POLL_ATTEMPTS times, 500 microseconds apart. -/
def try_complete_filesize_from_path (attempts : Nat → XattrResult) : Except String (Option Nat) :=
  poll_content_length attempts NUM_POLL_ATTEMPTS 0

/-- Rust std::io::ErrorKind, restricted to the distinctions serve_from_growing_file
makes: BrokenPipe and ConnectionReset are handled, everything else is the
catch-all. -/
inductive IOErrKind
  | brokenPipe
  | connectionReset
  | otherErr (code : Nat)
deriving DecidableEq

/-- Environment of one pass of the growing-file loop: the file length that
stat reports, and the outcome of send_payload if a send happens this pass. -/
structure GrowPass where
  statSize : Nat
  sendOutcome : Except IOErrKind Unit

/-- Observable actions of the growing-file streamer: a zero-copy transmit of a
byte interval, and a 500-microsecond sleep. -/
inductive GrowAction
  | sent (lo hi : Nat)
  | slept
deriving DecidableEq

/-- Termination of the growing-file loop: completed normally, returned early on
a client disconnect, panicked on another I/O error, or ran out of observed
passes while the loop condition still held (the source's loop runs
indefinitely if the file stops growing). -/
inductive GrowResult
  | completed (log : List GrowAction)
  | clientDisconnected (log : List GrowAction)
  | panicked (kind : IOErrKind) (log : List GrowAction)
  | ranOut (log : List GrowAction)
deriving DecidableEq

def GrowResult.withLog (acts : List GrowAction) : GrowResult → GrowResult
  | .completed log => .completed (acts ++ log)
  | .clientDisconnected log => .clientDisconnected (acts ++ log)
  | .panicked k log => .panicked k (acts ++ log)
  | .ranOut log => .ranOut (acts ++ log)

/-- The while-loop of serve_from_growing_file: while client_received <
content_length + resume_from, stat the file; if the on-disk size exceeds
client_received, send_payload the interval and on success set client_received
to the new size, on BrokenPipe or ConnectionReset return, on any other error
panic; then sleep 500 microseconds iff client_received < content_length (note:
content_length, not content_length + resume_from). One GrowPass is consumed
per iteration. -/
def serve_growing_loop (content_length resume_from : Nat) :
    List GrowPass → Nat → GrowResult
  | [], client_received =>
    if client_received < content_length + resume_from then .ranOut [] else .completed []
  | p :: rest, client_received =>
    if client_received < content_length + resume_from then
      if client_received < p.statSize then
        match p.sendOutcome with
        | .error k =>
          match k with
          | .brokenPipe => .clientDisconnected []
          | .connectionReset => .clientDisconnected []
          | _ => .panicked k []
        | .ok _ =>
          GrowResult.withLog
            ([GrowAction.sent client_received p.statSize] ++
              (if p.statSize < content_length then [GrowAction.slept] else []))
            (serve_growing_loop content_length resume_from rest p.statSize)
      else
        GrowResult.withLog (if client_received < content_length then [GrowAction.slept] else [])
          (serve_growing_loop content_length resume_from rest client_received)
    else .completed []

/-- serve_from_growing_file: write the 200/206 header, then run the tail loop
starting at client_received = resume_from. -/
def serve_from_growing_file (content_length : Nat) (resume_from : Option Nat)
    (env : List GrowPass) : Except String (ReplyHeader × GrowResult) :=
  match (match resume_from with
         | none => reply_header_success content_length
         | some r => reply_header_partial_content content_length r) with
  | .error e => .error e
  | .ok header =>
    .ok (header, serve_growing_loop content_length (resume_from.getD 0) env (resume_from.getD 0))

/-- Helper: when the file really holds at least filesize bytes, the sendfile
loop finishes (given fuel at least filesize - offset), transmits exactly the
bytes of the file from the starting offset to the final offset, and the final
offset is at least filesize and at most max offset (file length). -/
theorem send_payload_loop_ok (contents : List Nat) (filesize : Nat) :
    ∀ fuel offset, filesize ≤ contents.length → filesize - offset ≤ fuel →
    ∃ fin, send_payload_loop contents filesize fuel offset
        = some (fin, (contents.drop offset).take (fin - offset))
      ∧ filesize ≤ fin ∧ offset ≤ fin ∧ fin ≤ max offset contents.length := by
  intro fuel
  induction fuel with
  | zero =>
    intro offset hL hf
    have hof : filesize ≤ offset := by omega
    refine ⟨offset, ?_, hof, le_refl _, le_max_left _ _⟩
    simp [send_payload_loop, Nat.not_lt.mpr hof]
  | succ fuel1 ih =>
    intro offset hL hf
    by_cases hlt : offset < filesize
    · have hmoved : 1 ≤ min MAX_SENDFILE_COUNT (contents.length - offset) := by
        have hM : 1 ≤ MAX_SENDFILE_COUNT := by decide
        have h1 : 1 ≤ contents.length - offset := by omega
        omega
      have hmle : min MAX_SENDFILE_COUNT (contents.length - offset) ≤ contents.length - offset :=
        min_le_right _ _
      obtain ⟨fin, heq, hfin1, hfin2, hfin3⟩ :=
        ih (offset + min MAX_SENDFILE_COUNT (contents.length - offset)) hL (by omega)
      refine ⟨fin, ?_, hfin1, by omega, ?_⟩
      · simp only [send_payload_loop, if_pos hlt, heq]
        have harith : fin - offset =
            min MAX_SENDFILE_COUNT (contents.length - offset) +
              (fin - (offset + min MAX_SENDFILE_COUNT (contents.length - offset))) := by omega
        rw [harith, List.take_add, List.drop_drop]
      · have : offset + min MAX_SENDFILE_COUNT (contents.length - offset) ≤ contents.length := by
          omega
        omega
    · have hof : filesize ≤ offset := by omega
      refine ⟨offset, ?_, hof, le_refl _, le_max_left _ _⟩
      simp [send_payload_loop, Nat.not_lt.mpr hof]

/-- Helper: when the file is shorter than the filesize argument and the loop
condition holds, no amount of fuel finishes the sendfile loop: the offset can
never reach filesize, so the source's while-loop never exits. -/
theorem send_payload_loop_stuck (contents : List Nat) (filesize : Nat)
    (h : contents.length < filesize) :
    ∀ fuel offset, offset < filesize → send_payload_loop contents filesize fuel offset = none := by
  intro fuel
  induction fuel with
  | zero =>
    intro offset ho
    simp [send_payload_loop, ho]
  | succ fuel1 ih =>
    intro offset ho
    have hmle : min MAX_SENDFILE_COUNT (contents.length - offset) ≤ contents.length - offset :=
      min_le_right _ _
    have hlt : offset + min MAX_SENDFILE_COUNT (contents.length - offset) < filesize := by omega
    simp [send_payload_loop, ho, ih _ hlt]

/-- Helper: complete-mode serving with a resume offset r ≤ filesize over a
nonempty file produces the 206 header with the Content-Range of the source's
format string and transmits exactly the file bytes from r to the end. -/
theorem serve_complete_some (contents : List Nat) (r : Nat)
    (hr : r ≤ contents.length) (hs : 0 < contents.length) :
    serve_from_complete_file contents (some r) =
      .ok ({ status_line := "206 Partial Content",
             content_range := "Content-Range: bytes " ++ toString r ++ "-" ++
               toString (contents.length - 1) ++ "/" ++ toString contents.length ++ "\r\n",
             content_length := contents.length - r }, contents.drop r) := by
  have h1 : checkedSub contents.length r = some (contents.length - r) := by
    simp [checkedSub, hr]
  have hc : contents.length - r + r = contents.length := Nat.sub_add_cancel hr
  have h1s : checkedSub contents.length 1 = some (contents.length - 1) := by
    unfold checkedSub
    rw [if_pos (by omega)]
  have h2 : reply_header_partial_content (contents.length - r) r =
      .ok { status_line := "206 Partial Content",
            content_range := "Content-Range: bytes " ++ toString r ++ "-" ++
              toString (contents.length - 1) ++ "/" ++ toString contents.length ++ "\r\n",
            content_length := contents.length - r } := by
    simp [reply_header_partial_content, reply_header, content_range_header, hc, h1s, Except.map]
  obtain ⟨fin, heq, hf1, hf2, hf3⟩ :=
    send_payload_loop_ok contents contents.length (contents.length + 1) r (le_refl _) (by omega)
  have hmax : max r contents.length = contents.length := max_eq_right hr
  have hfin : fin = contents.length := by rw [hmax] at hf3; omega
  subst hfin
  have htake : (contents.drop r).take (contents.length - r) = contents.drop r := by
    rw [show contents.length - r = (contents.drop r).length by simp, List.take_length]
  rw [htake] at heq
  simp only [serve_from_complete_file, Option.getD_some, h1, h2, heq]

/-- Helper: complete-mode serving with no resume offset produces the plain 200
header (no Content-Range) and transmits the whole file; this holds for every
file, including the empty one. -/
theorem serve_complete_none (contents : List Nat) :
    serve_from_complete_file contents none =
      .ok ({ status_line := "200 OK", content_range := "", content_length := contents.length },
        contents) := by
  have h1 : checkedSub contents.length 0 = some contents.length := by simp [checkedSub]
  obtain ⟨fin, heq, hf1, hf2, hf3⟩ :=
    send_payload_loop_ok contents contents.length (contents.length + 1) 0 (le_refl _) (by omega)
  have hfin : fin = contents.length := by
    rw [max_eq_right (Nat.zero_le _)] at hf3
    omega
  subst hfin
  have htake : (contents.drop 0).take (contents.length - 0) = contents := by simp
  rw [htake] at heq
  simp only [serve_from_complete_file, Option.getD_none, h1, reply_header_success, reply_header,
    content_range_header, Except.map, heq]

/-- Helper: if every attempt in the polled window reads as absent, the polling
loop returns None after exhausting its attempts. -/
theorem poll_content_length_none (attempts : Nat → XattrResult) :
    ∀ n start, (∀ k, start ≤ k → k < start + n → content_length_from_path (attempts k) = .ok none) →
    poll_content_length attempts n start = .ok none := by
  intro n
  induction n with
  | zero => intro start _; rfl
  | succ n1 ih =>
    intro start h
    have h0 : content_length_from_path (attempts start) = .ok none :=
      h start (le_refl _) (by omega)
    simp only [poll_content_length, h0]
    exact ih (start + 1) (fun k hk1 hk2 => h k (by omega) (by omega))

/-- Helper: if attempt start + d is the first successful read (all earlier
attempts in the window read as absent) and d is within the attempt budget, the
polling loop returns that value. -/
theorem poll_content_length_found (attempts : Nat → XattrResult) (v : Nat) :
    ∀ n start d, d < n →
    (∀ j, j < d → content_length_from_path (attempts (start + j)) = .ok none) →
    content_length_from_path (attempts (start + d)) = .ok (some v) →
    poll_content_length attempts n start = .ok (some v) := by
  intro n
  induction n with
  | zero => intro start d hd; omega
  | succ n1 ih =>
    intro start d hd hnone hfound
    cases d with
    | zero =>
      have h0 : content_length_from_path (attempts start) = .ok (some v) := by
        simpa using hfound
      simp only [poll_content_length, h0]
    | succ d1 =>
      have h0 : content_length_from_path (attempts start) = .ok none := by
        simpa using hnone 0 (Nat.succ_pos d1)
      simp only [poll_content_length, h0]
      refine ih (start + 1) d1 (by omega) (fun j hj => ?_) ?_
      · have := hnone (j + 1) (by omega)
        have harith : start + (j + 1) = start + 1 + j := by omega
        rwa [harith] at this
      · have harith : start + (d1 + 1) = start + 1 + d1 := by omega
        rwa [harith] at hfound

/-- Claim C1 (amended): in the Scheduled outcome, the handler maps the first
subscriber-channel message as follows: JobSize(n) dispatches to the growing-file
path with remaining byte count n; Unavailable yields a 404 header-only reply;
OrderError yields a 400 header-only reply; a closed channel (Disconnected)
yields a 500 header-only reply; a Failed message (or Completed, or a recv
timeout) does not produce a reply at all: the handler panics. Header-only
replies stream no payload bytes. -/
theorem scheduled_reply_mapping (n : Nat) (rf : Option Nat) :
    serve_client_scheduled (.msg (.jobSize n)) rf = .ok (.growingFile n rf)
    ∧ serve_client_scheduled (.msg .unavailable) rf =
        .ok (.headerOnly { status_line := "404 Not Found", content_range := "", content_length := 0 })
    ∧ serve_client_scheduled (.msg .orderError) rf =
        .ok (.headerOnly { status_line := "400 Bad Request", content_range := "", content_length := 0 })
    ∧ serve_client_scheduled (.recvErr .disconnected) rf =
        .ok (.headerOnly { status_line := "500 Internal Server Error", content_range := "", content_length := 0 })
    ∧ serve_client_scheduled (.msg .failed) rf = .error "panic: unexpected message"
    ∧ serve_client_scheduled (.msg .completed) rf = .error "panic: unexpected message"
    ∧ serve_client_scheduled (.recvErr .timeout) rf = .error "panic: content length error" :=
  ⟨rfl, rfl, rfl, rfl, rfl, rfl, rfl⟩

/-- Claim C1 counterexample: a Failed progress message does not yield a 500
reply as the claim states; receive_content_length hits the unexpected-message
panic arm, so the handler panics and sends nothing. -/
theorem scheduled_failed_cex :
    serve_client_scheduled (.msg .failed) none = .error "panic: unexpected message"
    ∧ ∀ reply, serve_client_scheduled (.msg .failed) none ≠ .ok reply :=
  ⟨rfl, fun _ h => Except.noConfusion h⟩

/-- Claim C4 (amended): in the AlreadyInProgress outcome, a successful poll of
the content_length attribute dispatches to the growing-file path with
content_length = polled value minus the client's resume offset, but a poll
timeout (None) is unwrapped and the handler panics; no 500 reply is sent. -/
theorem in_progress_mapping (cf : Nat) (rf : Option Nat) (h : rf.getD 0 ≤ cf) :
    serve_client_in_progress (some cf) rf = .ok (.growingFile (cf - rf.getD 0) rf)
    ∧ serve_client_in_progress none rf = .error "panic: unwrap on None" := by
  constructor
  · have h1 : checkedSub cf (rf.getD 0) = some (cf - rf.getD 0) := by
      unfold checkedSub
      rw [if_pos h]
    simp only [serve_client_in_progress, h1]
  · rfl

theorem in_progress_mapping_witness :
    serve_client_in_progress (some 10) (some 2) = .ok (.growingFile 8 (some 2))
    ∧ serve_client_in_progress none (some 2) = .error "panic: unwrap on None" :=
  in_progress_mapping 10 (some 2) (by decide)

/-- Claim C4 counterexample: when the poll times out the handler does not reply
500; it panics on the unwrap of None. -/
theorem in_progress_timeout_cex :
    serve_client_in_progress none none = .error "panic: unwrap on None"
    ∧ ∀ reply, serve_client_in_progress none none ≠ .ok reply :=
  ⟨rfl, fun _ h => Except.noConfusion h⟩

/-- Claim C5 (amended): reading the content_length attribute returns None when
the attribute is absent or when the xattr read itself fails, but a decode
error — a value that is not valid UTF-8, or not a decimal integer — makes the
read panic (the source unwraps both String::from_utf8 and parse::<u64>)
rather than being treated as an absent attribute. -/
theorem content_length_decode_amended (value : List Nat) :
    content_length_from_path .absent = .ok none
    ∧ content_length_from_path .ioError = .ok none
    ∧ (utf8Decode value = none →
        content_length_from_path (.present value) = .error "panic: invalid utf8")
    ∧ (∀ cps, utf8Decode value = some cps → parseU64 cps = none →
        content_length_from_path (.present value) = .error "panic: invalid digit")
    ∧ (∀ cps n, utf8Decode value = some cps → parseU64 cps = some n →
        content_length_from_path (.present value) = .ok (some n)) := by
  refine ⟨rfl, rfl, ?_, ?_, ?_⟩
  · intro h
    simp [content_length_from_path, h]
  · intro cps h1 h2
    simp [content_length_from_path, h1, h2]
  · intro cps n h1 h2
    simp [content_length_from_path, h1, h2]

theorem content_length_decode_amended_witness :
    content_length_from_path (.present [0xFF]) = .error "panic: invalid utf8"
    ∧ content_length_from_path (.present [0x61, 0x62, 0x63]) = .error "panic: invalid digit"
    ∧ content_length_from_path (.present [0x34, 0x32]) = .ok (some 42) :=
  ⟨(content_length_decode_amended [0xFF]).2.2.1 (by decide),
   (content_length_decode_amended [0x61, 0x62, 0x63]).2.2.2.1 [0x61, 0x62, 0x63]
     (by decide) (by decide),
   (content_length_decode_amended [0x34, 0x32]).2.2.2.2 [0x34, 0x32] 42 (by decide) (by decide)⟩

/-- Claim C5 counterexample: a non-UTF-8 attribute value (0xC3 0x28) and a
non-integer attribute value ("x") both panic instead of returning None. -/
theorem content_length_decode_cex :
    content_length_from_path (.present [0xC3, 0x28]) = .error "panic: invalid utf8"
    ∧ content_length_from_path (.present [0x78]) = .error "panic: invalid digit"
    ∧ ∀ v, content_length_from_path (.present [0xC3, 0x28]) ≠ .ok v :=
  ⟨rfl, rfl, fun _ h => Except.noConfusion h⟩

/-- Claim C2 (amended): for a Cached outcome over a complete on-disk file of
size s, with resume_from r where r ≤ s and s > 0, the reply has status 206,
Content-Length s - r, Content-Range "bytes r-(s-1)/s", and the payload equals
the file bytes from r to the end; with no resume_from the reply has status
200, Content-Length s, an empty Content-Range, and the payload is the whole
file. (The unamended claim also covered r = s = 0 with a resume offset, where
the code panics; see the counterexample.) -/
theorem serve_complete_spec (contents : List Nat) (r : Nat)
    (hr : r ≤ contents.length) (hs : 0 < contents.length) :
    serve_from_complete_file contents (some r) =
      .ok ({ status_line := "206 Partial Content",
             content_range := "Content-Range: bytes " ++ toString r ++ "-" ++
               toString (contents.length - 1) ++ "/" ++ toString contents.length ++ "\r\n",
             content_length := contents.length - r }, contents.drop r)
    ∧ serve_from_complete_file contents none =
      .ok ({ status_line := "200 OK", content_range := "", content_length := contents.length },
        contents) :=
  ⟨serve_complete_some contents r hr hs, serve_complete_none contents⟩

theorem serve_complete_spec_witness :
    serve_from_complete_file [7, 8, 9] (some 1) =
      .ok ({ status_line := "206 Partial Content",
             content_range := "Content-Range: bytes 1-2/3\r\n",
             content_length := 2 }, [8, 9])
    ∧ serve_from_complete_file [7, 8, 9] none =
      .ok ({ status_line := "200 OK", content_range := "", content_length := 3 }, [7, 8, 9]) := by
  have h := serve_complete_spec [7, 8, 9] 1 (by decide) (by decide)
  constructor
  · rw [h.1]
    rfl
  · rw [h.2]
    rfl

/-- Claim C2 counterexample: resume_from = 0 over an empty complete file has
r ≤ s, yet the handler panics computing the Content-Range last byte (0 - 1 on
u64) instead of producing the claimed 206 reply. -/
theorem serve_complete_empty_cex :
    serve_from_complete_file [] (some 0) = .error "panic: subtract with overflow"
    ∧ ∀ res, serve_from_complete_file [] (some 0) ≠ .ok res :=
  ⟨rfl, fun _ h => Except.noConfusion h⟩

/-- Claim C9: complete-mode serving is panic-free exactly under the
precondition that any resume offset is at most the file size and is not
supplied for an empty file; with resume_from greater than the file length the
u64 subtraction filesize - resume_from underflows and the handler panics, and
with a resume offset on an empty file the subtraction complete_size - 1 in
reply_header underflows and the handler panics, in both cases before any reply
is produced. -/
theorem serve_complete_panics (contents : List Nat) (resume_from : Option Nat) :
    ((∀ r, resume_from = some r → r ≤ contents.length ∧ contents.length ≠ 0) →
      ∃ res, serve_from_complete_file contents resume_from = .ok res)
    ∧ (∀ r, contents.length < r →
        serve_from_complete_file contents (some r) = .error "panic: subtract with overflow")
    ∧ (contents.length = 0 →
        serve_from_complete_file contents (some 0) = .error "panic: subtract with overflow") := by
  refine ⟨?_, ?_, ?_⟩
  · intro hpre
    cases resume_from with
    | none => exact ⟨_, serve_complete_none contents⟩
    | some r =>
      obtain ⟨hr, hs⟩ := hpre r rfl
      exact ⟨_, serve_complete_some contents r hr (Nat.pos_of_ne_zero hs)⟩
  · intro r hr
    have h1 : checkedSub contents.length r = none := by
      unfold checkedSub
      rw [if_neg (by omega)]
    simp only [serve_from_complete_file, Option.getD_some, h1]
  · intro h0
    have hnil : contents = [] := List.length_eq_zero.mp h0
    subst hnil
    rfl

theorem serve_complete_panics_witness :
    (∃ res, serve_from_complete_file [4, 5] (some 1) = .ok res)
    ∧ serve_from_complete_file [4, 5] (some 9) = .error "panic: subtract with overflow" := by
  constructor
  · refine (serve_complete_panics [4, 5] (some 1)).1 ?_
    intro r h
    injection h with h1
    subst h1
    decide
  · exact (serve_complete_panics [4, 5] (some 9)).2.1 9 (by decide)

/-- Claim C3 (amended): each pass of the growing-file loop stats the file and,
whenever the on-disk length exceeds the bytes already sent, transmits the
interval between them; the loop exits as soon as bytes_sent is at least
resume_from + content_length; but the 500 microsecond sleep happens after a
pass iff bytes_sent is still below content_length (the remaining count, not
the end offset), regardless of whether the pass transmitted new bytes — so
with a nonzero resume offset the tail of the loop spins without sleeping, and
sleeps also follow productive passes. -/
theorem growing_loop_step (cl rf received stat : Nat) (rest : List GrowPass) :
    (cl + rf ≤ received → ∀ env, serve_growing_loop cl rf env received = .completed [])
    ∧ (received < cl + rf → serve_growing_loop cl rf [] received = .ranOut [])
    ∧ (received < cl + rf → received < stat →
        serve_growing_loop cl rf ({ statSize := stat, sendOutcome := .ok () } :: rest) received =
          GrowResult.withLog
            ([GrowAction.sent received stat] ++ (if stat < cl then [GrowAction.slept] else []))
            (serve_growing_loop cl rf rest stat))
    ∧ (∀ so, received < cl + rf → stat ≤ received →
        serve_growing_loop cl rf ({ statSize := stat, sendOutcome := so } :: rest) received =
          GrowResult.withLog (if received < cl then [GrowAction.slept] else [])
            (serve_growing_loop cl rf rest received)) := by
  refine ⟨?_, ?_, ?_, ?_⟩
  · intro h env
    cases env with
    | nil => simp [serve_growing_loop, Nat.not_lt.mpr h]
    | cons p rest2 => simp [serve_growing_loop, Nat.not_lt.mpr h]
  · intro h
    simp [serve_growing_loop, h]
  · intro h1 h2
    simp [serve_growing_loop, h1, h2]
  · intro so h1 h2
    simp [serve_growing_loop, h1, Nat.not_lt.mpr h2]

theorem growing_loop_step_witness :
    serve_growing_loop 3 0 [] 5 = .completed []
    ∧ serve_growing_loop 3 0 [] 1 = .ranOut []
    ∧ serve_growing_loop 3 0 ({ statSize := 2, sendOutcome := .ok () } :: []) 1 =
        GrowResult.withLog ([GrowAction.sent 1 2] ++ (if 2 < 3 then [GrowAction.slept] else []))
          (serve_growing_loop 3 0 [] 2)
    ∧ serve_growing_loop 3 0 ({ statSize := 1, sendOutcome := .ok () } :: []) 2 =
        GrowResult.withLog (if 2 < 3 then [GrowAction.slept] else [])
          (serve_growing_loop 3 0 [] 2) :=
  ⟨(growing_loop_step 3 0 5 0 []).1 (by decide) [],
   (growing_loop_step 3 0 1 0 []).2.1 (by decide),
   (growing_loop_step 3 0 1 2 []).2.2.1 (by decide) (by decide),
   (growing_loop_step 3 0 2 1 []).2.2.2 (.ok ()) (by decide) (by decide)⟩

/-- Claim C3 counterexample: with content_length 5 and resume offset 10, a pass
with no new bytes produces no sleep at all (the log is empty), because the
source compares bytes_sent against content_length rather than the end offset;
and with content_length 10 and no resume offset, a pass that did transmit new
bytes is nevertheless followed by a sleep. -/
theorem growing_sleep_cex :
    serve_growing_loop 5 10 [{ statSize := 10, sendOutcome := .ok () }] 10 = .ranOut []
    ∧ serve_growing_loop 10 0 [{ statSize := 4, sendOutcome := .ok () }] 0 =
        .ranOut [GrowAction.sent 0 4, GrowAction.slept] :=
  ⟨rfl, rfl⟩

/-- Claim C6 (amended): in Growing mode a BrokenPipe or ConnectionReset error
from the client socket makes the streamer return normally, but any other I/O
error during streaming makes the handler panic, and the process-wide panic
hook installed in main then exits the entire process with code 1 — it is not
fatal to this request only. -/
theorem growing_io_error_handling (cl rf received stat : Nat) (rest : List GrowPass)
    (k : IOErrKind) (h1 : received < cl + rf) (h2 : received < stat) :
    ((k = .brokenPipe ∨ k = .connectionReset) →
      serve_growing_loop cl rf ({ statSize := stat, sendOutcome := .error k } :: rest) received =
        .clientDisconnected [])
    ∧ (k ≠ .brokenPipe → k ≠ .connectionReset →
      serve_growing_loop cl rf ({ statSize := stat, sendOutcome := .error k } :: rest) received =
        .panicked k [] ∧ panic_hook_effect = .exits 1) := by
  constructor
  · rintro (rfl | rfl) <;> simp [serve_growing_loop, h1, h2]
  · intro hb hc
    cases k with
    | brokenPipe => exact absurd rfl hb
    | connectionReset => exact absurd rfl hc
    | otherErr c => exact ⟨by simp [serve_growing_loop, h1, h2], rfl⟩

theorem growing_io_error_handling_witness :
    serve_growing_loop 4 0 [{ statSize := 2, sendOutcome := .error .brokenPipe }] 0 =
      .clientDisconnected []
    ∧ (serve_growing_loop 4 0 [{ statSize := 2, sendOutcome := .error (.otherErr 7) }] 0 =
        .panicked (.otherErr 7) [] ∧ panic_hook_effect = .exits 1) :=
  ⟨(growing_io_error_handling 4 0 0 2 [] .brokenPipe (by decide) (by decide)).1 (Or.inl rfl),
   (growing_io_error_handling 4 0 0 2 [] (.otherErr 7) (by decide) (by decide)).2
     (by decide) (by decide)⟩

/-- Claim C6 counterexample: an I/O error other than BrokenPipe/ConnectionReset
makes the streamer panic, and the panic hook exits the whole process — the
error is not confined to this request. -/
theorem growing_io_error_cex :
    serve_growing_loop 5 0 [{ statSize := 3, sendOutcome := .error (.otherErr 0) }] 0 =
      .panicked (.otherErr 0) []
    ∧ panic_hook_effect ≠ .continues :=
  ⟨rfl, by decide⟩

/-- Claim C7: the zero-copy transfer handles totals beyond a single syscall:
the per-call cap MAX_SENDFILE_COUNT is below 2^31, and for any file holding at
least filesize bytes, the sendfile loop (given fuel at least filesize - offset)
returns only once the accumulated offset has reached at least filesize, having
transmitted exactly the file bytes from the starting offset to the final
offset. -/
theorem send_payload_delivers (contents : List Nat) (filesize offset fuel : Nat)
    (hL : filesize ≤ contents.length) (hfuel : filesize - offset ≤ fuel) :
    MAX_SENDFILE_COUNT < 2 ^ 31
    ∧ ∃ fin, send_payload_loop contents filesize fuel offset
          = some (fin, (contents.drop offset).take (fin - offset))
        ∧ filesize ≤ fin ∧ offset ≤ fin ∧ fin ≤ max offset contents.length :=
  ⟨by decide, send_payload_loop_ok contents filesize fuel offset hL hfuel⟩

theorem send_payload_delivers_witness :
    MAX_SENDFILE_COUNT < 2 ^ 31
    ∧ ∃ fin, send_payload_loop [3, 4, 5] 3 3 1
          = some (fin, (([3, 4, 5] : List Nat).drop 1).take (fin - 1))
        ∧ 3 ≤ fin ∧ 1 ≤ fin ∧ fin ≤ max 1 ([3, 4, 5] : List Nat).length :=
  send_payload_delivers [3, 4, 5] 3 1 3 (by decide) (by decide)

/-- Claim C8: wait_for_size (try_complete_filesize_from_path) polls the
content_length attribute in NUM_POLL_ATTEMPTS = 2000 * 2 = 4000 attempts of
POLL_SLEEP_MICROS = 500 microseconds each (2 seconds total): it returns the
decoded value on the first successful read within the budget, and None when
every attempt within the budget reads as absent. -/
theorem wait_for_size_spec (attempts : Nat → XattrResult) :
    NUM_POLL_ATTEMPTS * POLL_SLEEP_MICROS = 2000000
    ∧ ((∀ k, k < NUM_POLL_ATTEMPTS → content_length_from_path (attempts k) = .ok none) →
        try_complete_filesize_from_path attempts = .ok none)
    ∧ (∀ k v, k < NUM_POLL_ATTEMPTS →
        (∀ j, j < k → content_length_from_path (attempts j) = .ok none) →
        content_length_from_path (attempts k) = .ok (some v) →
        try_complete_filesize_from_path attempts = .ok (some v)) := by
  refine ⟨by decide, ?_, ?_⟩
  · intro h
    exact poll_content_length_none attempts NUM_POLL_ATTEMPTS 0 (fun k _ hk2 => h k (by omega))
  · intro k v hk hnone hfound
    refine poll_content_length_found attempts v NUM_POLL_ATTEMPTS 0 k hk (fun j hj => ?_) ?_
    · simpa using hnone j hj
    · simpa using hfound

theorem wait_for_size_spec_witness :
    try_complete_filesize_from_path (fun _ => XattrResult.absent) = .ok none
    ∧ try_complete_filesize_from_path (fun _ => XattrResult.present [0x37]) = .ok (some 7) :=
  ⟨(wait_for_size_spec (fun _ => XattrResult.absent)).2.1 (fun _ _ => rfl),
   (wait_for_size_spec (fun _ => XattrResult.present [0x37])).2.2 0 7 (by decide)
     (fun j hj => absurd hj (Nat.not_lt_zero j)) rfl⟩

/-- Claim C10: send_payload terminates exactly under the precondition that the
file holds at least filesize bytes: with it, the loop finishes with a final
offset of at least filesize; without it (file shorter than filesize, offset
still below filesize), every sendfile call at end-of-file moves zero bytes,
the offset never changes, and no amount of fuel makes the loop exit. -/
theorem send_payload_termination (contents : List Nat) (filesize offset : Nat) :
    (filesize ≤ contents.length → ∀ fuel, filesize - offset ≤ fuel →
      ∃ fin payload, send_payload_loop contents filesize fuel offset = some (fin, payload)
        ∧ filesize ≤ fin)
    ∧ (contents.length < filesize → offset < filesize →
      ∀ fuel, send_payload_loop contents filesize fuel offset = none) := by
  constructor
  · intro hL fuel hf
    obtain ⟨fin, heq, hfs, _, _⟩ := send_payload_loop_ok contents filesize fuel offset hL hf
    exact ⟨fin, _, heq, hfs⟩
  · intro hL ho fuel
    exact send_payload_loop_stuck contents filesize hL fuel offset ho

theorem send_payload_termination_witness :
    (∃ fin payload, send_payload_loop [9, 9] 2 5 0 = some (fin, payload) ∧ 2 ≤ fin)
    ∧ send_payload_loop [] 1 7 0 = none :=
  ⟨(send_payload_termination [9, 9] 2 0).1 (by decide) 5 (by decide),
   (send_payload_termination [] 1 0).2 (by decide) (by decide) 7⟩

end Flexo
